import Mathlib

/-!
Shallow embedding of `src/mu/interface.py` (the Mu editor's GUI shell):
the `EditorPane` label logic, the `WebViewPane` zoom handlers, the
`ProjectSelector` / `Window` dialog plumbing, the message boxes, the
`Window.webview_left` / `Window.webview_right` properties, and the
`REPLPane` serial console (construction, key handling and byte rendering).

Qt-toolkit primitives (text cursors, serial ports, dialogs) are modelled as
explicit state records; effectful methods become functions from state to
state, returning in addition the values the Python code returns or the
exceptions it raises.
-/

namespace Mu

/-! ### `os.path.basename` and `EditorPane` (interface.py lines 280-343) -/

/-- POSIX `os.path.basename`: everything after the last `/`. -/
def basename (p : String) : String :=
  (p.splitOn "/").getLastD ""

/-- The state of an `EditorPane` that the `label` property reads:
its `path` and its Scintilla modified flag. -/
structure EditorPaneState where
  path : String
  text : String
  modified : Bool
  deriving Repr, DecidableEq

/-- `EditorPane.__init__(path, text)`: stores the path, sets the text and
calls `setModified(False)`. -/
def EditorPane_init (path text : String) : EditorPaneState :=
  { path := path, text := text, modified := false }

/-- `EditorPane.label` (lines 326-343): basename of the path when it is
truthy, `'untitled'` otherwise; `' *'` appended when modified. -/
def EditorPane_label (e : EditorPaneState) : String :=
  let l := if e.path ≠ "" then basename e.path else "untitled"
  if e.modified then l ++ " *" else l

/-! ### `WebViewPane.zoomIn` / `zoomOut` (lines 934-948)

The zoom factor is modelled as a rational number. -/

/-- `WebViewPane.zoomIn`: `new_zoom = zoomFactor() + 0.1`;
`setZoomFactor(new_zoom if new_zoom < 2.0 else 2.0)`. -/
def zoomIn (z : ℚ) : ℚ :=
  let new_zoom := z + 1/10
  if new_zoom < 2 then new_zoom else 2

/-- `WebViewPane.zoomOut`: `new_zoom = zoomFactor() - 0.1`;
`setZoomFactor(new_zoom if new_zoom > 0.5 else 0.5)`. -/
def zoomOut (z : ℚ) : ℚ :=
  let new_zoom := z - 1/10
  if new_zoom > 1/2 then new_zoom else 1/2

/-- One user zoom request. -/
inductive ZoomOp where
  | zin : ZoomOp
  | zout : ZoomOp
  deriving Repr, DecidableEq

/-- Apply a sequence of `zoomIn` / `zoomOut` calls to a zoom factor. -/
def applyZoomOps (z : ℚ) : List ZoomOp → ℚ
  | [] => z
  | op :: rest =>
      applyZoomOps (match op with | .zin => zoomIn z | .zout => zoomOut z) rest

/-! ### `ProjectSelector.get_project` / `Window.get_template` (lines 124-136, 475-487) -/

/-- `QDialog.Accepted`. -/
def QDialog_Accepted : Nat := 1

/-- The selector state read by `get_project`: the dialog result code, the
currently selected `ProjectItem`'s `path` and `default`, and the text of
the project-name line edit. -/
structure SelectorState where
  result : Nat
  itemPath : String
  itemDefault : String
  projectNameText : String
  deriving Repr, DecidableEq

/-- The dict returned by `ProjectSelector.get_project`. -/
structure Project where
  path : String
  default : String
  name : String
  deriving Repr, DecidableEq

/-- `ProjectSelector.get_project` (lines 124-136): the project record when
the dialog was accepted, otherwise `RuntimeError('New project rejected.')`. -/
def ProjectSelector_get_project (s : SelectorState) : Except String Project :=
  if s.result = QDialog_Accepted then
    Except.ok { path := s.itemPath, default := s.itemDefault,
                name := s.projectNameText }
  else
    Except.error "New project rejected."

/-- `Window.get_template` (lines 475-487): run the selector; if accepted,
return `selector.get_project()`, else `None`. -/
def Window_get_template (s : SelectorState) : Except String (Option Project) :=
  if s.result = QDialog_Accepted then
    (ProjectSelector_get_project s).map some
  else
    Except.ok none

/-! ### `Window.show_message` / `Window.show_confirmation` (lines 687-738) -/

/-- The `QMessageBox` configuration the two dialog helpers build. -/
structure MessageBoxState where
  text : String
  informativeText : Option String
  icon : String
  standardButtons : List String
  defaultButton : Option String
  deriving Repr, DecidableEq

/-- Python truthiness of an optional string (`None` and `''` are falsy). -/
def truthyStr : Option String → Bool
  | none => false
  | some s => s ≠ ""

/-- A freshly constructed `QMessageBox()` with its text and title set. -/
def newMessageBox (message : String) : MessageBoxState :=
  { text := message, informativeText := none, icon := "NoIcon",
    standardButtons := [], defaultButton := none }

/-- Lines 704-707 / 730-733:
`if icon and hasattr(message_box, icon): setIcon(getattr(message_box, icon))
else: setIcon(message_box.Warning)`.  `hasattr` over the toolkit object is
kept abstract as a predicate on attribute names. -/
def setMessageBoxIcon (hasattr : String → Bool) (icon : Option String)
    (mb : MessageBoxState) : MessageBoxState :=
  if truthyStr icon ∧ hasattr (icon.getD "") then
    { mb with icon := icon.getD "" }
  else
    { mb with icon := "Warning" }

/-- `Window.show_message` (lines 687-710): returns the message-box state at
the point `exec()` is called. -/
def Window_show_message (hasattr : String → Bool) (message : String)
    (information : Option String) (icon : Option String) : MessageBoxState :=
  let mb := newMessageBox message
  let mb := if truthyStr information then
    { mb with informativeText := information } else mb
  setMessageBoxIcon hasattr icon mb

/-- `Window.show_confirmation` (lines 712-738): the message-box state at the
point `exec()` is called, paired with the value `exec()` produced, which the
method returns. -/
def Window_show_confirmation (hasattr : String → Bool) (message : String)
    (information : Option String) (icon : Option String)
    (execResult : Nat) : MessageBoxState × Nat :=
  let mb := newMessageBox message
  let mb := if truthyStr information then
    { mb with informativeText := information } else mb
  let mb := setMessageBoxIcon hasattr icon mb
  let mb := { mb with
                standardButtons := ["Cancel", "Ok"]
                defaultButton := some "Cancel" }
  (mb, execResult)

/-! ### `Window.webview_left` / `Window.webview_right` (lines 615-623, 651-659) -/

/-- A Python instance attribute: either absent (reading raises
`AttributeError`) or stored; a stored `none` models an attribute assigned
the Python value `None` (as `remove_webview_*` do). -/
inductive Attr (α : Type) where
  | absent : Attr α
  | stored : Option α → Attr α
  deriving Repr, DecidableEq

/-- The two private web-view attributes of a `Window`; a pane object is
modelled by an identifier. -/
structure WindowWebViews where
  webviewLeftAttr : Attr Nat
  webviewRightAttr : Attr Nat
  deriving Repr, DecidableEq

/-- `Window.webview_left` (lines 615-623): `try: return self._webview_left
except AttributeError: return None`. -/
def Window_webview_left (w : WindowWebViews) : Option Nat :=
  match w.webviewLeftAttr with
  | .stored v => v
  | .absent => none

/-- `Window.webview_right` (lines 651-659): the body is
`return self.webview_right`, which re-enters the same property getter (the
`except AttributeError` never fires, since the property itself exists).
Fuel-indexed evaluation; `none` means no value was produced within the
given fuel. -/
def Window_webview_right (w : WindowWebViews) : Nat → Option (Option Nat)
  | 0 => none
  | n + 1 => Window_webview_right w n

/-! ### `REPLPane.__init__` (lines 822-840)

Modelled as the trace of serial-port / widget effects the constructor
performs, paired with the `IOError` message when it raises. -/

/-- One effect of the constructor on the serial port or the text widget. -/
inductive SerialEffect where
  | setPortName : String → SerialEffect
  | openPort : SerialEffect
  | setBaudRate : Nat → SerialEffect
  | connectReadyRead : SerialEffect
  | clearText : SerialEffect
  | write : List Nat → SerialEffect
  deriving Repr, DecidableEq

/-- `REPLPane.__init__(port, ...)`: set the port name and open it in
read-write mode; on success set the baud rate to 115200, connect
`readyRead`, clear the text and write `b'\x03'`; on failure raise
`IOError`.  `openOk` is whether `serial.open(QIODevice.ReadWrite)`
succeeded. -/
def REPLPane_init (openOk : Bool) (port : String) :
    List SerialEffect × Option String :=
  let pre := [SerialEffect.setPortName port, SerialEffect.openPort]
  if openOk then
    (pre ++ [SerialEffect.setBaudRate 115200, SerialEffect.connectReadyRead,
             SerialEffect.clearText, SerialEffect.write [0x03]], none)
  else
    (pre, some ("Cannot connect to device on port " ++ port))

/-- The payloads of the `write` effects of a trace, in order. -/
def serialWrites : List SerialEffect → List (List Nat)
  | [] => []
  | SerialEffect.write bs :: rest => bs :: serialWrites rest
  | _ :: rest => serialWrites rest

/-- The arguments of the `setBaudRate` effects of a trace, in order. -/
def baudRatesSet : List SerialEffect → List Nat
  | [] => []
  | SerialEffect.setBaudRate r :: rest => r :: baudRatesSet rest
  | _ :: rest => baudRatesSet rest

/-! ### `REPLPane.keyPressEvent` (lines 857-884) -/

/-- Qt key/modifier constants referenced by `keyPressEvent`. -/
def Key_Backspace : Nat := 0x01000003

/-- `Qt.Key_Up`. -/
def Key_Up : Nat := 0x01000013

/-- `Qt.Key_Down`. -/
def Key_Down : Nat := 0x01000015

/-- `Qt.Key_Right`. -/
def Key_Right : Nat := 0x01000014

/-- `Qt.Key_Left`. -/
def Key_Left : Nat := 0x01000012

/-- `Qt.Key_A`. -/
def Key_A : Nat := 0x41

/-- `Qt.Key_Z`. -/
def Key_Z : Nat := 0x5a

/-- `Qt.MetaModifier`. -/
def MetaModifier : Nat := 0x10000000

/-- The parts of a `QKeyEvent` the handler reads: `key()`, `text()` and
`modifiers()`. -/
structure KeyEvent where
  key : Nat
  text : String
  modifiers : Nat
  deriving Repr, DecidableEq

/-- `bytes(s, 'utf8')` as a list of byte values. -/
def utf8Encode (s : String) : List Nat :=
  s.toUTF8.toList.map (fun b => b.toNat)

/-- `REPLPane.keyPressEvent` (lines 857-884): the list of messages written
to the serial port while handling one key event. -/
def REPLPane_keyPressEvent (e : KeyEvent) : List (List Nat) :=
  let msg := utf8Encode e.text
  let msg :=
    if e.key = Key_Backspace then [0x08]
    else if e.key = Key_Up then [0x1b, 0x5b, 0x41]
    else if e.key = Key_Down then [0x1b, 0x5b, 0x42]
    else if e.key = Key_Right then [0x1b, 0x5b, 0x43]
    else if e.key = Key_Left then [0x1b, 0x5b, 0x44]
    else if e.modifiers = MetaModifier then
      if Key_A ≤ e.key ∧ e.key ≤ Key_Z then [1 + e.key - Key_A] else msg
    else msg
  [msg]

/-- Claim-side description of the single message sent per key press:
plain byte-forwarding with the five special cases the claim lists. -/
def keyMessageSpec (e : KeyEvent) : List Nat :=
  if e.key = Key_Backspace then [0x08]
  else if e.key = Key_Up then [0x1b, 0x5b, 0x41]
  else if e.key = Key_Down then [0x1b, 0x5b, 0x42]
  else if e.key = Key_Right then [0x1b, 0x5b, 0x43]
  else if e.key = Key_Left then [0x1b, 0x5b, 0x44]
  else if e.modifiers = MetaModifier ∧ Key_A ≤ e.key ∧ e.key ≤ Key_Z then
    [1 + e.key - Key_A]
  else utf8Encode e.text

/-! ### `REPLPane.process_bytes` (lines 886-906)

A `QTextEdit` document is modelled as a list of lines with a (row, column)
text-cursor position. -/

/-- Document plus cursor of the REPL's `QTextEdit`. -/
structure TermState where
  lines : List String
  row : Nat
  col : Nat
  deriving Repr, DecidableEq

/-- `QTextCursor.movePosition(QTextCursor.Down)`: move to the next line
when one exists (clamping the column to its length); `none` when the
cursor did not move. -/
def cursorDown (st : TermState) : Option TermState :=
  if h : st.row + 1 < st.lines.length then
    some { st with
             row := st.row + 1
             col := min st.col (st.lines.get ⟨st.row + 1, h⟩).length }
  else none

/-- `QTextCursor.movePosition(QTextCursor.Left)`: one position left,
crossing onto the end of the previous line from column 0. -/
def cursorLeft (st : TermState) : TermState :=
  if st.col > 0 then { st with col := st.col - 1 }
  else if st.row > 0 then
    { st with
        row := st.row - 1
        col := (st.lines.getD (st.row - 1) "").length }
  else st

/-- `QTextCursor.deleteChar()`: delete the character at the cursor; at end
of line it deletes the line break, joining the next line on. -/
def deleteChar (st : TermState) : TermState :=
  let line := st.lines.getD st.row ""
  if st.col < line.length then
    { st with
      lines := st.lines.set st.row (String.mk (line.data.eraseIdx st.col)) }
  else if st.row + 1 < st.lines.length then
    { st with lines :=
        st.lines.take st.row
          ++ [line ++ st.lines.getD (st.row + 1) ""]
          ++ st.lines.drop (st.row + 2) }
  else st

/-- `QTextEdit.insertPlainText` of one character at the cursor. -/
def insertPlainChar (st : TermState) (c : Char) : TermState :=
  let line := st.lines.getD st.row ""
  if c = '\n' then
    { st with
        lines :=
          st.lines.take st.row
            ++ [String.mk (line.data.take st.col),
                String.mk (line.data.drop st.col)]
            ++ st.lines.drop (st.row + 1)
        row := st.row + 1
        col := 0 }
  else
    { st with
        lines := st.lines.set st.row
          (String.mk (line.data.take st.col ++ c :: line.data.drop st.col))
        col := st.col + 1 }

/-- Lines 894-895: `while tc.movePosition(QTextCursor.Down): pass`. -/
def moveToLastLine (st : TermState) : TermState :=
  match h : cursorDown st with
  | some st' => moveToLastLine st'
  | none => st
termination_by st.lines.length - st.row
decreasing_by
  simp only [cursorDown] at h
  split at h
  · cases h
    simp only [List.length]
    omega
  · cases h

/-- The `for b in bs` loop of `process_bytes` (lines 896-905): byte 8 moves
the cursor left, byte 13 does nothing, any other byte is handled by
`deleteChar` followed by `insertPlainText(chr(b))`. -/
def processLoop : TermState → List Nat → TermState
  | st, [] => st
  | st, b :: rest =>
      if b = 8 then processLoop (cursorLeft st) rest
      else if b = 13 then processLoop st rest
      else processLoop (insertPlainChar (deleteChar st) (Char.ofNat b)) rest

/-- `REPLPane.process_bytes` (lines 886-906). -/
def process_bytes (st : TermState) (bs : List Nat) : TermState :=
  processLoop (moveToLastLine st) bs

/-- Claim-side per-byte handler: exactly one of three character-code
branches for each byte. -/
def byteStep (st : TermState) (b : Nat) : TermState :=
  if b = 8 then cursorLeft st
  else if b = 13 then st
  else insertPlainChar (deleteChar st) (Char.ofNat b)

end Mu

namespace Mu

theorem zoomIn_eq_min (z : ℚ) : zoomIn z = min (z + 1/10) 2 := by
  show (if z + 1/10 < 2 then z + 1/10 else 2) = min (z + 1/10) 2
  split_ifs with h
  · exact (min_eq_left h.le).symm
  · exact (min_eq_right (not_lt.mp h)).symm

theorem zoomOut_eq_max (z : ℚ) : zoomOut z = max (z - 1/10) (1/2) := by
  show (if z - 1/10 > 1/2 then z - 1/10 else 1/2) = max (z - 1/10) (1/2)
  split_ifs with h
  · exact (max_eq_left h.le).symm
  · exact (max_eq_right (not_lt.mp h)).symm

theorem zoomIn_mem (z : ℚ) (h₁ : 1/2 ≤ z) (h₂ : z ≤ 2) :
    1/2 ≤ zoomIn z ∧ zoomIn z ≤ 2 := by
  rw [zoomIn_eq_min]
  constructor
  · exact le_min (by linarith) (by norm_num)
  · exact min_le_right _ _

theorem zoomOut_mem (z : ℚ) (h₁ : 1/2 ≤ z) (h₂ : z ≤ 2) :
    1/2 ≤ zoomOut z ∧ zoomOut z ≤ 2 := by
  rw [zoomOut_eq_max]
  refine ⟨le_max_right _ _, max_le (by linarith) (by norm_num)⟩

theorem applyZoomOps_mem (z : ℚ) (ops : List ZoomOp)
    (h₁ : 1/2 ≤ z) (h₂ : z ≤ 2) :
    1/2 ≤ applyZoomOps z ops ∧ applyZoomOps z ops ≤ 2 := by
  induction ops generalizing z with
  | nil => exact ⟨h₁, h₂⟩
  | cons op rest ih =>
      cases op with
      | zin =>
          obtain ⟨a, b⟩ := zoomIn_mem z h₁ h₂
          exact ih (zoomIn z) a b
      | zout =>
          obtain ⟨a, b⟩ := zoomOut_mem z h₁ h₂
          exact ih (zoomOut z) a b

/-- C10: `zoomIn` sets the zoom factor to the old factor plus 0.1 capped at
2.0, `zoomOut` to the old factor minus 0.1 floored at 0.5; hence any
sequence of zoom calls starting in `[0.5, 2.0]` keeps the factor in
`[0.5, 2.0]`. -/
theorem C10_webview_zoom_invariant :
    (∀ z : ℚ, zoomIn z = min (z + 1/10) 2 ∧ zoomOut z = max (z - 1/10) (1/2)) ∧
    ∀ (z : ℚ) (ops : List ZoomOp), 1/2 ≤ z → z ≤ 2 →
      1/2 ≤ applyZoomOps z ops ∧ applyZoomOps z ops ≤ 2 :=
  ⟨fun z => ⟨zoomIn_eq_min z, zoomOut_eq_max z⟩,
   fun z ops h₁ h₂ => applyZoomOps_mem z ops h₁ h₂⟩

/-- Witness for C10 at the concrete factor 1 and the call sequence
`[zoomIn, zoomOut]`. -/
theorem C10_webview_zoom_invariant_witness :
    (1/2 : ℚ) ≤ 1 ∧ (1 : ℚ) ≤ 2 ∧
    1/2 ≤ applyZoomOps 1 [ZoomOp.zin, ZoomOp.zout] ∧
    applyZoomOps 1 [ZoomOp.zin, ZoomOp.zout] ≤ 2 := by
  have h := C10_webview_zoom_invariant.2 1 [ZoomOp.zin, ZoomOp.zout]
    (by norm_num) (by norm_num)
  exact ⟨by norm_num, by norm_num, h.1, h.2⟩

/-- C9: the `label` property is the basename of the path when the path is
non-empty, `'untitled'` otherwise, with `' *'` appended exactly when the
pane is modified; a fresh `EditorPane` is unmodified and its initial label
has no asterisk suffix. -/
theorem C9_editor_label_spec :
    (∀ e : EditorPaneState,
        EditorPane_label e =
          (if e.path ≠ "" then basename e.path else "untitled")
            ++ (if e.modified then " *" else "")) ∧
    ∀ path text : String,
      (EditorPane_init path text).modified = false ∧
      EditorPane_label (EditorPane_init path text) =
        (if path ≠ "" then basename path else "untitled") := by
  have key : ∀ e : EditorPaneState,
      EditorPane_label e =
        (if e.path ≠ "" then basename e.path else "untitled")
          ++ (if e.modified then " *" else "") := by
    intro e
    unfold EditorPane_label
    cases hm : e.modified <;> simp [hm]
  refine ⟨key, fun path text => ⟨rfl, ?_⟩⟩
  rw [key]
  simp [EditorPane_init]

/-- C8: the `webview_right` getter re-enters itself, so it never produces a
value for any window and any amount of fuel — in particular it never
returns `None` — while `webview_left` returns the stored attribute when
present and `None` when the attribute is absent. -/
theorem C8_webview_right_diverges :
    (∀ (w : WindowWebViews) (fuel : Nat), Window_webview_right w fuel = none) ∧
    (∀ (w : WindowWebViews) (v : Option Nat),
        w.webviewLeftAttr = Attr.stored v → Window_webview_left w = v) ∧
    (∀ w : WindowWebViews,
        w.webviewLeftAttr = Attr.absent → Window_webview_left w = none) := by
  refine ⟨?_, ?_, ?_⟩
  · intro w fuel
    induction fuel with
    | zero => rfl
    | succ n ih => exact ih
  · intro w v h
    unfold Window_webview_left
    rw [h]
  · intro w h
    unfold Window_webview_left
    rw [h]

/-- Witness for C8 on a window whose left pane is stored and with fuel 100
for the right getter. -/
theorem C8_webview_right_diverges_witness :
    Window_webview_right ⟨Attr.stored (some 7), Attr.absent⟩ 100 = none ∧
    (⟨Attr.stored (some 7), Attr.absent⟩ : WindowWebViews).webviewLeftAttr
      = Attr.stored (some 7) ∧
    Window_webview_left ⟨Attr.stored (some 7), Attr.absent⟩ = some 7 :=
  ⟨C8_webview_right_diverges.1 _ 100, rfl,
   C8_webview_right_diverges.2.1 _ (some 7) rfl⟩

/-- C5: `get_project` returns the record built from the selected item and
the name field when the dialog result is `Accepted` and raises
`RuntimeError` otherwise; `get_template` returns `None` whenever the
selector dialog is not accepted. -/
theorem C5_get_project_get_template :
    ∀ s : SelectorState,
      (s.result = QDialog_Accepted →
        ProjectSelector_get_project s =
          Except.ok ⟨s.itemPath, s.itemDefault, s.projectNameText⟩) ∧
      (s.result ≠ QDialog_Accepted →
        ProjectSelector_get_project s = Except.error "New project rejected." ∧
        Window_get_template s = Except.ok none) := by
  intro s
  constructor
  · intro h
    unfold ProjectSelector_get_project
    rw [if_pos h]
  · intro h
    unfold Window_get_template ProjectSelector_get_project
    rw [if_neg h, if_neg h]
    exact ⟨rfl, rfl⟩

/-- Witness for C5 at an accepted and at a rejected selector state. -/
theorem C5_get_project_get_template_witness :
    ProjectSelector_get_project ⟨1, "p", "d", "n"⟩ = Except.ok ⟨"p", "d", "n"⟩ ∧
    ProjectSelector_get_project ⟨0, "p", "d", "n"⟩ =
      Except.error "New project rejected." ∧
    Window_get_template ⟨0, "p", "d", "n"⟩ = Except.ok none := by
  refine ⟨(C5_get_project_get_template ⟨1, "p", "d", "n"⟩).1 rfl, ?_, ?_⟩
  · exact ((C5_get_project_get_template ⟨0, "p", "d", "n"⟩).2 (by decide)).1
  · exact ((C5_get_project_get_template ⟨0, "p", "d", "n"⟩).2 (by decide)).2

/-- C6: when the icon argument is absent or names no attribute of the
message box, both dialog helpers set the Warning icon; `show_confirmation`
always offers exactly Cancel and Ok, defaults to Cancel, and returns the
result of `exec()`. -/
theorem C6_show_message_confirmation :
    ∀ (hasattr : String → Bool) (message : String)
      (information icon : Option String) (execResult : Nat),
      ((icon = none ∨ ∃ s, icon = some s ∧ hasattr s = false) →
        (Window_show_message hasattr message information icon).icon
          = "Warning" ∧
        (Window_show_confirmation hasattr message information icon
          execResult).1.icon = "Warning") ∧
      (Window_show_confirmation hasattr message information icon
        execResult).1.standardButtons = ["Cancel", "Ok"] ∧
      (Window_show_confirmation hasattr message information icon
        execResult).1.defaultButton = some "Cancel" ∧
      (Window_show_confirmation hasattr message information icon
        execResult).2 = execResult := by
  intro hasattr message information icon execResult
  have hicon : ∀ mb : MessageBoxState,
      (icon = none ∨ ∃ s, icon = some s ∧ hasattr s = false) →
      (setMessageBoxIcon hasattr icon mb).icon = "Warning" := by
    intro mb h
    unfold setMessageBoxIcon
    rcases h with h | ⟨s, hs, hf⟩
    · rw [if_neg]
      rintro ⟨ht, -⟩
      rw [h] at ht
      exact absurd ht (by simp [truthyStr])
    · rw [if_neg]
      rintro ⟨ht, hh⟩
      rw [hs] at hh
      simp only [Option.getD_some] at hh
      rw [hf] at hh
      exact Bool.false_ne_true hh
  constructor
  · intro h
    constructor
    · unfold Window_show_message
      exact hicon _ h
    · unfold Window_show_confirmation
      split_ifs <;> exact hicon _ h
  · unfold Window_show_confirmation
    unfold setMessageBoxIcon
    split_ifs <;> exact ⟨rfl, rfl, rfl⟩

/-- Witness for C6 with no icon argument and `exec()` returning 3. -/
theorem C6_show_message_confirmation_witness :
    ((none : Option String) = none ∨
      ∃ s, (none : Option String) = some s ∧ (fun _ : String => false) s = false) ∧
    (Window_show_message (fun _ => false) "m" none none).icon = "Warning" ∧
    (Window_show_confirmation (fun _ => false) "m" none none 3).1.icon
      = "Warning" ∧
    (Window_show_confirmation (fun _ => false) "m" none none 3).1.standardButtons
      = ["Cancel", "Ok"] ∧
    (Window_show_confirmation (fun _ => false) "m" none none 3).1.defaultButton
      = some "Cancel" ∧
    (Window_show_confirmation (fun _ => false) "m" none none 3).2 = 3 := by
  have h := C6_show_message_confirmation (fun _ => false) "m" none none 3
  have hw := h.1 (Or.inl rfl)
  exact ⟨Or.inl rfl, hw.1, hw.2, h.2.1, h.2.2.1, h.2.2.2⟩

/-- C3: when the serial port opens in read-write mode the constructor sets
the baud rate to exactly 115200, clears the pane's text, writes exactly
one message, the single byte 0x03, and raises nothing. -/
theorem C3_replpane_init_open :
    ∀ (openOk : Bool) (port : String), openOk = true →
      (REPLPane_init openOk port).2 = none ∧
      baudRatesSet (REPLPane_init openOk port).1 = [115200] ∧
      SerialEffect.clearText ∈ (REPLPane_init openOk port).1 ∧
      serialWrites (REPLPane_init openOk port).1 = [[0x03]] := by
  intro openOk port h
  subst h
  refine ⟨rfl, rfl, ?_, rfl⟩
  simp [REPLPane_init]

/-- Witness for C3 at a concretely named port. -/
theorem C3_replpane_init_open_witness :
    (true = true) ∧
    (REPLPane_init true "COM3").2 = none ∧
    baudRatesSet (REPLPane_init true "COM3").1 = [115200] ∧
    SerialEffect.clearText ∈ (REPLPane_init true "COM3").1 ∧
    serialWrites (REPLPane_init true "COM3").1 = [[0x03]] :=
  ⟨rfl, C3_replpane_init_open true "COM3" rfl⟩

/-- C4: the constructor raises `IOError` exactly when the port fails to
open, and in that case no baud rate is set and no bytes are written. -/
theorem C4_replpane_init_raises :
    ∀ (openOk : Bool) (port : String),
      ((REPLPane_init openOk port).2 ≠ none ↔ openOk = false) ∧
      (openOk = false →
        (REPLPane_init openOk port).2 =
          some ("Cannot connect to device on port " ++ port) ∧
        baudRatesSet (REPLPane_init openOk port).1 = [] ∧
        serialWrites (REPLPane_init openOk port).1 = []) := by
  intro openOk port
  cases openOk with
  | false => exact ⟨⟨fun _ => rfl, fun _ h => by cases h⟩, fun _ => ⟨rfl, rfl, rfl⟩⟩
  | true =>
      refine ⟨⟨fun h => absurd rfl h, fun h => by cases h⟩, fun h => by cases h⟩

/-- Witness for C4 at a failing open on a concretely named port. -/
theorem C4_replpane_init_raises_witness :
    ((REPLPane_init false "COM3").2 ≠ none) ∧
    (REPLPane_init false "COM3").2 =
      some ("Cannot connect to device on port " ++ "COM3") ∧
    baudRatesSet (REPLPane_init false "COM3").1 = [] ∧
    serialWrites (REPLPane_init false "COM3").1 = [] := by
  have h := C4_replpane_init_raises false "COM3"
  exact ⟨h.1.mpr rfl, h.2 rfl⟩

/-- C2: every key press writes exactly one message to the serial port,
computed by the stateless case analysis of `keyMessageSpec`; in the
Meta + letter case the message is the single byte `1 + key - Key_A`,
which lies in `1..26`. -/
theorem C2_keypress_single_write :
    (∀ e : KeyEvent, REPLPane_keyPressEvent e = [keyMessageSpec e]) ∧
    ∀ e : KeyEvent, e.modifiers = MetaModifier →
      Key_A ≤ e.key → e.key ≤ Key_Z →
      keyMessageSpec e = [1 + e.key - Key_A] ∧
      1 ≤ 1 + e.key - Key_A ∧ 1 + e.key - Key_A ≤ 26 := by
  constructor
  · intro e
    simp only [REPLPane_keyPressEvent, keyMessageSpec]
    by_cases h1 : e.key = Key_Backspace
    · simp [h1]
    by_cases h2 : e.key = Key_Up
    · simp [h1, h2]
    by_cases h3 : e.key = Key_Down
    · simp [h1, h2, h3]
    by_cases h4 : e.key = Key_Right
    · simp [h1, h2, h3, h4]
    by_cases h5 : e.key = Key_Left
    · simp [h1, h2, h3, h4, h5]
    by_cases h6 : e.modifiers = MetaModifier
    · by_cases h7 : Key_A ≤ e.key ∧ e.key ≤ Key_Z
      · simp [h1, h2, h3, h4, h5, h6, h7]
      · simp [h1, h2, h3, h4, h5, h6, h7]
    · simp [h1, h2, h3, h4, h5, h6]
  · intro e hm ha hz
    have hrange : 0x41 ≤ e.key ∧ e.key ≤ 0x5a := by
      unfold Key_A at ha
      unfold Key_Z at hz
      exact ⟨ha, hz⟩
    refine ⟨?_, ?_, ?_⟩
    · simp only [keyMessageSpec]
      rw [if_neg, if_neg, if_neg, if_neg, if_neg, if_pos ⟨hm, ha, hz⟩]
      all_goals simp only [Key_Backspace, Key_Up, Key_Down, Key_Right, Key_Left]
      all_goals omega
    · omega
    · unfold Key_A
      omega

/-- Witness for C2 at Meta+C (key code 0x43). -/
theorem C2_keypress_single_write_witness :
    (⟨0x43, "c", MetaModifier⟩ : KeyEvent).modifiers = MetaModifier ∧
    Key_A ≤ 0x43 ∧ (0x43 : Nat) ≤ Key_Z ∧
    REPLPane_keyPressEvent ⟨0x43, "c", MetaModifier⟩ =
      [keyMessageSpec ⟨0x43, "c", MetaModifier⟩] ∧
    keyMessageSpec ⟨0x43, "c", MetaModifier⟩ = [3] := by
  refine ⟨rfl, by decide, by decide, C2_keypress_single_write.1 _, ?_⟩
  have h := C2_keypress_single_write.2 ⟨0x43, "c", MetaModifier⟩ rfl
    (by decide) (by decide)
  rw [h.1]
  decide

/-! ### Lemmas for `process_bytes` -/

theorem cursorDown_none (st : TermState) (h : cursorDown st = none) :
    ¬ st.row + 1 < st.lines.length := by
  unfold cursorDown at h
  intro hlt
  rw [dif_pos hlt] at h
  cases h

theorem cursorDown_some (st st' : TermState) (h : cursorDown st = some st') :
    st'.lines = st.lines ∧ st'.row = st.row + 1 ∧
    st.row + 1 < st.lines.length := by
  unfold cursorDown at h
  by_cases hlt : st.row + 1 < st.lines.length
  · rw [dif_pos hlt] at h
    cases h
    exact ⟨rfl, rfl, hlt⟩
  · rw [dif_neg hlt] at h
    cases h

theorem moveToLastLine_aux :
    ∀ (n : Nat) (st : TermState), st.lines.length - st.row = n →
      st.row < st.lines.length →
      (moveToLastLine st).lines = st.lines ∧
      (moveToLastLine st).row = st.lines.length - 1 := by
  intro n
  induction n with
  | zero =>
      intro st hn h
      omega
  | succ n ih =>
      intro st hn h
      rw [moveToLastLine]
      split
      · rename_i st' hd
        obtain ⟨hl, hr, hlt⟩ := cursorDown_some st st' hd
        obtain ⟨a, b⟩ := ih st' (by rw [hl, hr]; omega) (by rw [hl, hr]; omega)
        exact ⟨a.trans hl, by rw [b, hl]⟩
      · rename_i hd
        have hnl := cursorDown_none st hd
        exact ⟨rfl, by omega⟩

theorem moveToLastLine_spec (st : TermState) (h : st.row < st.lines.length) :
    (moveToLastLine st).lines = st.lines ∧
    (moveToLastLine st).row = st.lines.length - 1 :=
  moveToLastLine_aux (st.lines.length - st.row) st rfl h

theorem processLoop_eq_foldl (bs : List Nat) (st : TermState) :
    processLoop st bs = bs.foldl byteStep st := by
  induction bs generalizing st with
  | nil => rfl
  | cons b rest ih =>
      simp only [processLoop, List.foldl, byteStep]
      by_cases h8 : b = 8
      · simp [h8, ih]
      by_cases h13 : b = 13
      · simp [h8, h13, ih]
      · simp [h8, h13, ih]

/-- C1: `process_bytes` first moves the cursor down to the last line of
the document and then handles each byte by exactly one of three
character-code branches — backspace moves left, carriage return changes
nothing, and any other byte `b` is a `deleteChar` followed by inserting
`chr(b)` — applying no other transformation to the byte stream. -/
theorem C1_process_bytes_spec (st : TermState) (bs : List Nat)
    (h : st.row < st.lines.length) :
    process_bytes st bs = bs.foldl byteStep (moveToLastLine st) ∧
    (moveToLastLine st).lines = st.lines ∧
    (moveToLastLine st).row = st.lines.length - 1 := by
  obtain ⟨hl, hr⟩ := moveToLastLine_spec st h
  exact ⟨processLoop_eq_foldl bs (moveToLastLine st), hl, hr⟩

/-- Witness for C1 on a two-line document receiving a printable byte, a
carriage return and a backspace. -/
theorem C1_process_bytes_spec_witness :
    (0 : Nat) < (["ab", "cd"] : List String).length ∧
    (process_bytes ⟨["ab", "cd"], 0, 0⟩ [104, 13, 8] =
      [104, 13, 8].foldl byteStep (moveToLastLine ⟨["ab", "cd"], 0, 0⟩) ∧
     (moveToLastLine ⟨["ab", "cd"], 0, 0⟩).lines = ["ab", "cd"] ∧
     (moveToLastLine ⟨["ab", "cd"], 0, 0⟩).row = 1) :=
  ⟨by decide, C1_process_bytes_spec ⟨["ab", "cd"], 0, 0⟩ [104, 13, 8] (by decide)⟩

end Mu
